import Mathlib

/-!
Verification of the Paddle-YOLOv4 deployment inference pipeline
(`deploy_infer.py`) against its natural-language specification.

The embedding below translates the preprocessing operators (`Resize`,
`PadStride`), the input assembly (`create_inputs`), the output
disambiguation loop and the postprocessing of `Detector.predict` into
Lean.  Images are represented by their shapes (height, width, channels):
every property checked here concerns only shapes, metadata and the
values of the detection arrays, never the pixel contents produced by the
external interpolation libraries.  Python floats are modelled by `ℚ`;
Python exceptions (TypeError, ValueError, UnboundLocalError, IndexError)
are modelled by an explicit error type through `Except`.
-/

namespace DeployInfer

/-- Python exceptions raised (explicitly or implicitly) by the pipeline. -/
inductive PyError where
  | typeError (msg : String)
  | valueError (msg : String)
  | unboundLocal (name : String)
  | indexError (msg : String)
deriving DecidableEq, Repr

/-- `np.round`: round half to even (numpy's banker's rounding). -/
def np_round (x : ℚ) : ℤ :=
  if x - ⌊x⌋ = 1 / 2 then (if ⌊x⌋ % 2 = 0 then ⌊x⌋ else ⌊x⌋ + 1) else round x

/-- Python's `int(...)` on a float: truncation toward zero. -/
def py_int (x : ℚ) : ℤ :=
  if 0 ≤ x then ⌊x⌋ else -⌊-x⌋

/-- Python's `pat in s` substring test on strings. -/
def pyIn (pat s : String) : Bool :=
  s.data.tails.any (fun t => pat.data.isPrefixOf t)

/-- Shape of a numpy image array: height, width, channels
(pixel contents are irrelevant to the verified claims). -/
structure Img where
  h : ℕ
  w : ℕ
  c : ℕ
deriving DecidableEq, Repr

/-- The `im_info` metadata dict: `scale`, `origin_shape`, `resize_shape`.
The shapes start as `None` and are filled in by `decode_image`. -/
structure ImInfo where
  scale : ℚ
  origin_shape : Option (ℕ × ℕ)
  resize_shape : Option (ℕ × ℕ)
deriving DecidableEq, Repr

/-- `decode_image`: records the source spatial shape in both metadata
slots (the decoding of the pixel buffer itself is external). -/
def decode_image (im : Img) (im_info : ImInfo) : Img × ImInfo :=
  (im, { im_info with origin_shape := some (im.h, im.w),
                      resize_shape := some (im.h, im.w) })

/-- The architectures using the aspect-preserving scale policy
(`self.scale_set = {'RCNN', 'RetinaNet'}`). -/
def scale_set : List String := ["RCNN", "RetinaNet"]

/-- The `Resize` operator's fields.  `image_shape` is stored doubly
wrapped because `__init__` executes `self.image_shape = image_shape,`
(a trailing comma): the stored value is a 1-tuple and is therefore
never `None`, whatever argument was passed. -/
structure Resize where
  target_size : ℤ
  max_size : ℤ
  image_shape : Option (Option (List ℤ))
  arch : String
  use_cv2 : Bool
  interp : ℤ
deriving DecidableEq, Repr

/-- `Resize.__init__` (argument order of the constructor). -/
def Resize.init (arch : String) (target_size max_size : ℤ) (use_cv2 : Bool)
    (image_shape : Option (List ℤ)) (interp : ℤ) : Resize :=
  ⟨target_size, max_size, some image_shape, arch, use_cv2, interp⟩

/-- `Resize.generate_scale`: aspect-preserving policy when
`max_size != 0` and the arch is in `scale_set`, otherwise independent
per-axis stretching to `target_size`.  Returns `(im_scale_x, im_scale_y)`. -/
def Resize.generate_scale (self : Resize) (im : Img) : ℚ × ℚ :=
  if self.max_size ≠ 0 ∧ self.arch ∈ scale_set then
    let im_size_min : ℕ := min im.h im.w
    let im_size_max : ℕ := max im.h im.w
    let im_scale : ℚ := (self.target_size : ℚ) / (im_size_min : ℚ)
    let im_scale :=
      if np_round (im_scale * (im_size_max : ℚ)) > self.max_size then
        (self.max_size : ℚ) / (im_size_max : ℚ)
      else im_scale
    (im_scale, im_scale)
  else
    ((self.target_size : ℚ) / (im.w : ℚ), (self.target_size : ℚ) / (im.h : ℚ))

/-- Shape behaviour of the external `cv2.resize(im, None, None, fx, fy)`:
the destination size is `(round(fx*W), round(fy*H))`. -/
def cv2_resize (im : Img) (fx fy : ℚ) : Img :=
  ⟨(np_round (fy * (im.h : ℚ))).toNat, (np_round (fx * (im.w : ℚ))).toNat, im.c⟩

/-- Shape behaviour of the external `PIL.Image.resize((w, h))`. -/
def pil_resize (im : Img) (w h : ℤ) : Img :=
  ⟨h.toNat, w.toNat, im.c⟩

/-- Message of the TypeError raised by `Resize.__call__` when a max-size
cap is combined with the PIL path (the two adjacent Python string
literals concatenate without a space). -/
def resizeCapMsg : String :=
  "If you set max_size to cap the maximum size of image,please set use_cv2 to True to resize the image."

/-- `Resize.__call__`: scale the image, optionally paste it into a
zero-filled `max_size × max_size` canvas, record `scale` (for
`scale_set` archs) and `resize_shape` (after any padding) in the
metadata.  The numpy broadcast error on a paste that does not fit is
modelled as a ValueError. -/
def Resize.call (self : Resize) (im : Img) (im_info : ImInfo) :
    Except PyError (Img × ImInfo) :=
  let im_channel := im.c
  let sc := self.generate_scale im
  let im_scale_x := sc.1
  let im_scale_y := sc.2
  let step1 : Except PyError Img :=
    if self.use_cv2 then
      .ok (cv2_resize im im_scale_x im_scale_y)
    else
      let resize_w := py_int (im_scale_x * (im.w : ℚ))
      let resize_h := py_int (im_scale_y * (im.h : ℚ))
      if self.max_size ≠ 0 then
        .error (.typeError resizeCapMsg)
      else
        .ok (pil_resize im resize_w resize_h)
  match step1 with
  | .error e => .error e
  | .ok im1 =>
    let step2 : Except PyError Img :=
      if self.max_size ≠ 0 ∧ self.image_shape.isSome then
        if im1.h ≤ self.max_size.toNat ∧ im1.w ≤ self.max_size.toNat ∧
            im1.c = im_channel then
          .ok ⟨self.max_size.toNat, self.max_size.toNat, im_channel⟩
        else
          .error (.valueError "could not broadcast input array into padding canvas")
      else
        .ok im1
    match step2 with
    | .error e => .error e
    | .ok im2 =>
      let info1 :=
        if self.arch ∈ scale_set then { im_info with scale := im_scale_x }
        else im_info
      .ok (im2, { info1 with resize_shape := some (im2.h, im2.w) })

/-- The `PadStride` operator: only field is `coarsest_stride`. -/
structure PadStride where
  coarsest_stride : ℕ
deriving DecidableEq, Repr

/-- What `PadStride.__call__` returns: either the bare image (the
`stride == 0` early return `return im`) or the `(image, metadata)` pair
that the pipeline's unpacking `im, im_info = operator(im, im_info)`
expects. -/
inductive PadStrideResult where
  | imageOnly (im : ℕ × ℕ × ℕ)
  | withInfo (im : ℕ × ℕ × ℕ) (info : ImInfo)
deriving DecidableEq, Repr

/-- `PadStride.__call__` on a CHW image shape `(im_c, im_h, im_w)`:
pad spatial dims up to the next multiple of the stride
(`int(np.ceil(float(d) / stride) * stride)`) and update `resize_shape`
to the padded shape. -/
def PadStride.call (self : PadStride) (im : ℕ × ℕ × ℕ) (im_info : ImInfo) :
    PadStrideResult :=
  let coarsest_stride := self.coarsest_stride
  if coarsest_stride = 0 then
    .imageOnly im
  else
    let pad_h := (py_int ((⌈(im.2.1 : ℚ) / (coarsest_stride : ℚ)⌉ : ℚ) *
        (coarsest_stride : ℚ))).toNat
    let pad_w := (py_int ((⌈(im.2.2 : ℚ) / (coarsest_stride : ℚ)⌉ : ℚ) *
        (coarsest_stride : ℚ))).toNat
    .withInfo (im.1, pad_h, pad_w) { im_info with resize_shape := some (pad_h, pad_w) }

/-- The named tensor set built by `create_inputs`; absent keys are
`none`.  The YOLO branch stores the `[W, H]` int pairs (axes swapped
from the stored `(H, W)`), the RetinaNet/RCNN branches the packed
float vectors. -/
structure Inputs where
  image : Img
  origin_shape : Option (List ℤ)
  resize_shape : Option (List ℤ)
  im_info : Option (List ℚ)
  im_shape : Option (List ℚ)
deriving DecidableEq, Repr

/-- `create_inputs`: assemble the model inputs from the image and the
metadata.  `list(im_info['origin_shape'])` on a still-`None` entry is a
Python TypeError.  An arch matching none of the three substring tests
falls through every branch and the initial `{'image': im}` dict is
returned unchanged. -/
def create_inputs (im : Img) (im_info : ImInfo) (model_arch : String) :
    Except PyError Inputs :=
  match im_info.origin_shape, im_info.resize_shape with
  | some origin_shape, some resize_shape =>
    let scale := im_info.scale
    if pyIn "YOLO" model_arch then
      .ok ⟨im, some [(origin_shape.2 : ℤ), (origin_shape.1 : ℤ)],
            some [(resize_shape.2 : ℤ), (resize_shape.1 : ℤ)], none, none⟩
    else if pyIn "RetinaNet" model_arch then
      .ok ⟨im, none, none,
            some [(resize_shape.1 : ℚ), (resize_shape.2 : ℚ), scale], none⟩
    else if pyIn "RCNN" model_arch then
      .ok ⟨im, none, none,
            some [(resize_shape.1 : ℚ), (resize_shape.2 : ℚ), scale],
            some [(origin_shape.1 : ℚ), (origin_shape.2 : ℚ), 1]⟩
    else
      .ok ⟨im, none, none, none, none⟩
  | _, _ => .error (.typeError "argument of type NoneType is not iterable")

/-- A raw output tensor copied back from the predictor: its shape
(list of dims), whether its dtype is `np.float32`, and its flattened
numeric data. -/
structure RawTensor where
  shape : List ℕ
  isFloat32 : Bool
  data : List ℚ
deriving DecidableEq, Repr

/-- One iteration of the disambiguation loop
`for o in [outs0, outs1, outs2]`: a rank-2 tensor is bound to `boxes`,
otherwise a float32 tensor to `scores`, otherwise to `classes`.  The
state holds the current (possibly still unbound) three locals. -/
def classifyStep (st : Option RawTensor × Option RawTensor × Option RawTensor)
    (o : RawTensor) : Option RawTensor × Option RawTensor × Option RawTensor :=
  if o.shape.length = 2 then
    (some o, st.2.1, st.2.2)
  else
    if o.isFloat32 then
      (st.1, some o, st.2.2)
    else
      (st.1, st.2.1, some o)

/-- The whole disambiguation loop, starting from all three locals
unbound. -/
def classifyOutputs (outs : List RawTensor) :
    Option RawTensor × Option RawTensor × Option RawTensor :=
  outs.foldl classifyStep (none, none, none)

/-- Take the first `k` rows of width `w` from a flattened rank-2 array
(numpy row-major layout: an `(n, w)` array has `n` rows of `w`). -/
def rowsAux : ℕ → ℕ → List ℚ → List (List ℚ)
  | 0, _, _ => []
  | k + 1, w, l => l.take w :: rowsAux k w (l.drop w)

/-- The rows of a rank-2 tensor, as filtered by `boxes[mask, :]`. -/
def tensorRows (t : RawTensor) : List (List ℚ) :=
  rowsAux (t.shape.getD 0 0) (t.shape.getD 1 0) t.data

/-- numpy boolean-mask selection `x[mask]` (for equal-length mask). -/
def maskFilter (mask : List Bool) (l : List α) : List α :=
  ((mask.zip l).filter (fun p => p.1)).map (fun p => p.2)

/-- The `results` dict returned by `Detector.predict`; keys that were
never inserted are `none` (the sentinel branch inserts only `boxes`). -/
structure Results where
  boxes : Option (List (List ℚ))
  scores : Option (List ℚ)
  classes : Option (List ℚ)
deriving DecidableEq, Repr

/-- `Detector.postprocess`: when `threshold > 0`, keep exactly the rows
whose score is strictly above the threshold (`expect_boxes = scores >
threshold`, then boolean-mask all three arrays); otherwise return the
arrays unchanged.  numpy raises on a boolean mask whose length differs
from the indexed axis; that is modelled as an IndexError. -/
def postprocess (boxes : List (List ℚ)) (scores classes : List ℚ)
    (threshold : ℚ) : Except PyError Results :=
  if 0 < threshold then
    if boxes.length = scores.length ∧ classes.length = scores.length then
      let expect_boxes := scores.map (fun s => decide (s > threshold))
      .ok ⟨some (maskFilter expect_boxes boxes),
           some (maskFilter expect_boxes scores),
           some (maskFilter expect_boxes classes)⟩
    else
      .error (.indexError "boolean index did not match indexed array")
  else
    .ok ⟨some boxes, some scores, some classes⟩

/-- The empty result built on the sentinel branch:
`results = {'boxes': np.array([])}` — no `scores` or `classes` key. -/
def sentinelResults : Results := ⟨some [], none, none⟩

/-- The shared tail of `Detector.predict` after the backend branches:
read `scores[0]` (an UnboundLocalError if the local was never assigned,
an IndexError if the array is empty); a negative first score short-cuts
to the sentinel empty result; otherwise run `postprocess` on the three
locals (reading `boxes` and then `classes`, each possibly unbound). -/
def predictTail (bv sv cv : Option RawTensor) (threshold : ℚ) :
    Except PyError Results :=
  match sv with
  | none => .error (.unboundLocal "scores")
  | some s =>
    match s.data.head? with
    | none => .error (.indexError "index 0 is out of bounds")
    | some s0 =>
      if s0 < 0 then
        .ok sentinelResults
      else
        match bv with
        | none => .error (.unboundLocal "boxes")
        | some b =>
          match cv with
          | none => .error (.unboundLocal "classes")
          | some c => postprocess (tensorRows b) s.data c.data threshold

/-- `Detector.predict` from the point where the backend has produced
its three raw output tensors `(o0, o1, o2)` (the backend itself is the
external collaborator; it returns the same outputs on every repeat).
On the interpreted-executor path (`use_python_inference`) the loop
results are bound only to `np_boxes`/`np_boxes2`/`np_boxes3` (and
`outs` itself is unbound when both loops run zero times), so the
`boxes`/`scores`/`classes` locals stay unbound; on the compiled path
the disambiguation loop runs once per timed repeat. -/
def predictCore (use_python_inference : Bool) (o0 o1 o2 : RawTensor)
    (threshold : ℚ) (warmup repeats : ℕ) : Except PyError Results :=
  if use_python_inference then
    if warmup = 0 ∧ repeats = 0 then
      .error (.unboundLocal "outs")
    else
      predictTail none none none threshold
  else
    if repeats = 0 then
      predictTail none none none threshold
    else
      let st := classifyOutputs [o0, o1, o2]
      predictTail st.1 st.2.1 st.2.2 threshold

/-- A preprocess-operator description from the `Preprocess` list of
`infer_cfg.yml` (the `type` tag plus the op-specific fields). -/
inductive OpInfo where
  | resizeOp (target_size max_size : ℤ) (use_cv2 : Bool)
      (image_shape : Option (List ℤ)) (interp : ℤ)
  | normalizeOp (mean std : List ℚ) (is_scale is_channel_first : Bool)
  | permuteOp (to_bgr channel_first : Bool)
  | padStrideOp (stride : ℕ)
deriving DecidableEq, Repr

/-- A constructed preprocess operator. -/
inductive PreprocessOp where
  | resize (r : Resize)
  | normalize (mean std : List ℚ) (is_scale is_channel_first : Bool)
  | permute (to_bgr channel_first : Bool)
  | padStride (p : PadStride)
deriving DecidableEq, Repr

/-- Construction of one operator in `Detector.__init__`: a `Resize` op
additionally receives the config's arch; no constructor validates its
arguments. -/
def buildPreprocessOp (arch : String) : OpInfo → PreprocessOp
  | .resizeOp t m u ish ip => .resize (Resize.init arch t m u ish ip)
  | .normalizeOp mean std a b => .normalize mean std a b
  | .permuteOp a b => .permute a b
  | .padStrideOp s => .padStride ⟨s⟩

/-- The configuration fields of `Config` that `Detector.__init__` and
`predict` read. -/
structure DeployConfig where
  arch : String
  use_python_inference : Bool
  preprocess_infos : List OpInfo
deriving DecidableEq, Repr

/-- A constructed `Detector`. -/
structure Detector where
  config : DeployConfig
  preprocess_ops : List PreprocessOp
deriving DecidableEq, Repr

/-- `Detector.__init__`: loads the backend (external) and builds the
preprocess operators.  Its body contains no `raise` and none of the
operator constructors validates anything, so construction always
succeeds. -/
def Detector.init (config : DeployConfig) : Except PyError Detector :=
  .ok ⟨config, config.preprocess_infos.map (buildPreprocessOp config.arch)⟩

/-! ## Helper lemmas -/

theorem np_round_intCast (n : ℤ) : np_round (n : ℚ) = n := by
  unfold np_round
  rw [Int.floor_intCast, sub_self]
  norm_num [round_intCast]

theorem maskFilter_cons (m : Bool) (ms : List Bool) (x : α) (xs : List α) :
    maskFilter (m :: ms) (x :: xs)
      = if m then x :: maskFilter ms xs else maskFilter ms xs := by
  cases m <;> simp [maskFilter]

/-- Boolean-masking three equal-length arrays with the mask
`scores > t` is the same as filtering the zipped rows on their score
component and projecting. -/
theorem maskFilter_zip_spec (t : ℚ) :
    ∀ (ss : List ℚ) (bs : List (List ℚ)) (cs : List ℚ),
      bs.length = ss.length → cs.length = ss.length →
      maskFilter (ss.map (fun s => decide (s > t))) bs
        = ((bs.zip (ss.zip cs)).filter (fun r => decide (r.2.1 > t))).map (fun r => r.1)
      ∧ maskFilter (ss.map (fun s => decide (s > t))) ss
        = ((bs.zip (ss.zip cs)).filter (fun r => decide (r.2.1 > t))).map (fun r => r.2.1)
      ∧ maskFilter (ss.map (fun s => decide (s > t))) cs
        = ((bs.zip (ss.zip cs)).filter (fun r => decide (r.2.1 > t))).map (fun r => r.2.2) := by
  intro ss
  induction ss with
  | nil =>
    intro bs cs hb hc
    have hb' : bs = [] := List.length_eq_zero.mp hb
    have hc' : cs = [] := List.length_eq_zero.mp hc
    subst hb'; subst hc'
    simp [maskFilter]
  | cons s ss ih =>
    intro bs cs hb hc
    cases bs with
    | nil => simp at hb
    | cons b bs =>
      cases cs with
      | nil => simp at hc
      | cons c cs =>
        simp only [List.length_cons, add_left_inj] at hb hc
        obtain ⟨h1, h2, h3⟩ := ih bs cs hb hc
        by_cases hts : s > t
        · simp [maskFilter_cons, hts, h1, h2, h3]
        · simp [maskFilter_cons, hts, h1, h2, h3]

/-! ## C6: aspect-preserving scale computation -/

/-- C6.  For positive original shape and aspect-preserving Resize
parameters (`max_size ≠ 0`, arch in the scale set, positive
`target_size` and `max_size`), `generate_scale` returns
`target_size / min(H, W)` unless the rounded longest edge at that scale
exceeds `max_size`, in which case it returns `max_size / max(H, W)`;
in both cases the rounded longest-edge result never exceeds
`max_size`. -/
theorem generate_scale_aspect (arch : String) (target_size max_size : ℤ)
    (use_cv2 : Bool) (ish : Option (List ℤ)) (ip : ℤ) (H W c : ℕ)
    (hH : 0 < H) (hW : 0 < W) (ht : 0 < target_size) (hm : 0 < max_size)
    (ha : arch ∈ scale_set) :
    (((Resize.init arch target_size max_size use_cv2 ish ip).generate_scale ⟨H, W, c⟩).1
      = if np_round ((target_size : ℚ) / ((min H W : ℕ) : ℚ) * ((max H W : ℕ) : ℚ)) > max_size
        then (max_size : ℚ) / ((max H W : ℕ) : ℚ)
        else (target_size : ℚ) / ((min H W : ℕ) : ℚ))
    ∧ np_round (((Resize.init arch target_size max_size use_cv2 ish ip).generate_scale
        ⟨H, W, c⟩).1 * ((max H W : ℕ) : ℚ)) ≤ max_size := by
  have hmne : max_size ≠ 0 := by omega
  have hmaxpos : (0 : ℕ) < max H W := lt_max_of_lt_left hH
  have hmaxne : ((max H W : ℕ) : ℚ) ≠ 0 := Nat.cast_ne_zero.mpr (by omega)
  unfold Resize.generate_scale Resize.init
  simp only
  rw [if_pos ⟨hmne, ha⟩]
  by_cases hcl :
      np_round ((target_size : ℚ) / ((min H W : ℕ) : ℚ) * ((max H W : ℕ) : ℚ)) > max_size
  · rw [if_pos hcl]
    refine ⟨rfl, ?_⟩
    dsimp only
    rw [div_mul_cancel₀ _ hmaxne, np_round_intCast]
  · rw [if_neg hcl]
    exact ⟨rfl, le_of_not_lt hcl⟩

/-- Witness for C6 at a concrete 100×100 image with
`target_size = 50`, `max_size = 100`. -/
theorem generate_scale_aspect_witness :
    (((Resize.init "RCNN" 50 100 true none 1).generate_scale ⟨100, 100, 3⟩).1
      = if np_round ((50 : ℚ) / ((min 100 100 : ℕ) : ℚ) * ((max 100 100 : ℕ) : ℚ)) > 100
        then (100 : ℚ) / ((max 100 100 : ℕ) : ℚ)
        else (50 : ℚ) / ((min 100 100 : ℕ) : ℚ))
    ∧ np_round (((Resize.init "RCNN" 50 100 true none 1).generate_scale
        ⟨100, 100, 3⟩).1 * ((max 100 100 : ℕ) : ℚ)) ≤ 100 :=
  generate_scale_aspect "RCNN" 50 100 true none 1 100 100 3
    (by decide) (by decide) (by decide) (by decide) (by decide)

/-! ## C5: threshold filtering keeps rows aligned -/

/-- C5.  For equal-length boxes/scores/classes and a positive
threshold, `postprocess` retains exactly the rows whose score is
strictly greater than the threshold, and the three returned arrays are
the aligned projections of the same filtered rows. -/
theorem postprocess_filters_aligned (boxes : List (List ℚ)) (scores classes : List ℚ)
    (t : ℚ) (hb : boxes.length = scores.length) (hc : classes.length = scores.length)
    (ht : 0 < t) :
    postprocess boxes scores classes t
      = .ok ⟨some (((boxes.zip (scores.zip classes)).filter
                (fun r => decide (r.2.1 > t))).map (fun r => r.1)),
             some (((boxes.zip (scores.zip classes)).filter
                (fun r => decide (r.2.1 > t))).map (fun r => r.2.1)),
             some (((boxes.zip (scores.zip classes)).filter
                (fun r => decide (r.2.1 > t))).map (fun r => r.2.2))⟩
    ∧ ∀ r ∈ (boxes.zip (scores.zip classes)).filter (fun r => decide (r.2.1 > t)),
        r.2.1 > t := by
  obtain ⟨h1, h2, h3⟩ := maskFilter_zip_spec t scores boxes classes hb hc
  constructor
  · unfold postprocess
    rw [if_pos ht, if_pos ⟨hb, hc⟩]
    simp only [h1, h2, h3]
  · intro r hr
    exact of_decide_eq_true ((List.mem_filter.mp hr).2)

/-- Witness for C5 at two concrete detections and threshold 1/2. -/
theorem postprocess_filters_aligned_witness :
    postprocess [[1, 1, 2, 2], [3, 3, 4, 4]] [9/10, 2/10] [0, 1] (1/2)
      = .ok ⟨some ((([[(1:ℚ), 1, 2, 2], [3, 3, 4, 4]].zip ([(9:ℚ)/10, 2/10].zip [(0:ℚ), 1])).filter
                (fun r => decide (r.2.1 > 1/2))).map (fun r => r.1)),
             some ((([[(1:ℚ), 1, 2, 2], [3, 3, 4, 4]].zip ([(9:ℚ)/10, 2/10].zip [(0:ℚ), 1])).filter
                (fun r => decide (r.2.1 > 1/2))).map (fun r => r.2.1)),
             some ((([[(1:ℚ), 1, 2, 2], [3, 3, 4, 4]].zip ([(9:ℚ)/10, 2/10].zip [(0:ℚ), 1])).filter
                (fun r => decide (r.2.1 > 1/2))).map (fun r => r.2.2))⟩
    ∧ ∀ r ∈ ([[(1:ℚ), 1, 2, 2], [3, 3, 4, 4]].zip ([(9:ℚ)/10, 2/10].zip [(0:ℚ), 1])).filter
          (fun r => decide (r.2.1 > 1/2)), r.2.1 > 1/2 :=
  postprocess_filters_aligned [[1, 1, 2, 2], [3, 3, 4, 4]] [9/10, 2/10] [0, 1] (1/2)
    rfl rfl (by norm_num)

/-! ## C3: the negative-first-score sentinel -/

/-- C3.  Whatever the disambiguated boxes and classes, the remaining
scores and the threshold, a negative first raw score makes `predict`
return the empty sentinel result without running the threshold
filter. -/
theorem predict_sentinel_empty (o0 o1 o2 : RawTensor) (t : ℚ) (w r : ℕ)
    (hr : r ≠ 0) (s : RawTensor) (hs : (classifyOutputs [o0, o1, o2]).2.1 = some s)
    (s0 : ℚ) (rest : List ℚ) (hd : s.data = s0 :: rest) (hneg : s0 < 0) :
    predictCore false o0 o1 o2 t w r = .ok sentinelResults := by
  have hpc : predictCore false o0 o1 o2 t w r
      = predictTail (classifyOutputs [o0, o1, o2]).1 (classifyOutputs [o0, o1, o2]).2.1
          (classifyOutputs [o0, o1, o2]).2.2 t := by
    simp [predictCore, hr]
  rw [hpc, hs]
  simp [predictTail, hd, hneg]

/-- Witness for C3: first raw score −1, a later score 5 above any
threshold; the result is still the sentinel empty dict. -/
theorem predict_sentinel_empty_witness :
    predictCore false ⟨[2, 4], true, [1, 1, 2, 2, 3, 3, 4, 4]⟩ ⟨[2], true, [-1, 5]⟩
        ⟨[2], false, [0, 1]⟩ (1/2) 10 10 = .ok sentinelResults :=
  predict_sentinel_empty ⟨[2, 4], true, [1, 1, 2, 2, 3, 3, 4, 4]⟩ ⟨[2], true, [-1, 5]⟩
    ⟨[2], false, [0, 1]⟩ (1/2) 10 10 (by decide) ⟨[2], true, [-1, 5]⟩ rfl
    (-1) [5] rfl (by norm_num)

/-! ## C7: presence and alignment of the result arrays -/

/-- The invariant claimed for every returned result: boxes, scores and
classes are all present and share one length. -/
def allArraysAligned (res : Results) : Prop :=
  ∃ bs ss cs, res.boxes = some bs ∧ res.scores = some ss ∧ res.classes = some cs
    ∧ bs.length = ss.length ∧ cs.length = ss.length

/-- C7 counterexample.  On the sentinel path `predict` returns
`{'boxes': np.array([])}` with no `scores`/`classes` keys at all, so
the three per-detection arrays are not all present. -/
theorem predict_sentinel_result_missing_keys :
    predictCore false ⟨[1, 4], true, [1, 1, 2, 2]⟩ ⟨[1], true, [-1]⟩ ⟨[1], false, [0]⟩
        (1/2) 10 10 = .ok sentinelResults
    ∧ ¬ allArraysAligned sentinelResults := by
  refine ⟨rfl, ?_⟩
  rintro ⟨bs, ss, cs, -, h2, -⟩
  simp [sentinelResults] at h2

/-- C7 (amended).  When the compiled path actually binds the three
locals to tensors whose row/element counts agree and the raw scores are
nonempty, every returned result either has all three arrays present
with a common length, or is the sentinel result (which carries only an
empty `boxes`). -/
theorem predict_result_arrays (o0 o1 o2 b s c : RawTensor) (t : ℚ) (w r : ℕ)
    (hr : r ≠ 0)
    (hcl : classifyOutputs [o0, o1, o2] = (some b, some s, some c))
    (hb : (tensorRows b).length = s.data.length)
    (hc : c.data.length = s.data.length)
    (hne : s.data ≠ []) :
    ∃ res, predictCore false o0 o1 o2 t w r = .ok res
      ∧ (allArraysAligned res ∨ res = sentinelResults) := by
  have hpc : predictCore false o0 o1 o2 t w r = predictTail (some b) (some s) (some c) t := by
    simp [predictCore, hr, hcl]
  obtain ⟨s0, rest, hd⟩ : ∃ s0 rest, s.data = s0 :: rest := by
    cases hsd : s.data with
    | nil => exact absurd hsd hne
    | cons a l => exact ⟨a, l, rfl⟩
  by_cases hneg : s0 < 0
  · exact ⟨sentinelResults, by rw [hpc]; simp [predictTail, hd, hneg], Or.inr rfl⟩
  · have hpt : predictTail (some b) (some s) (some c) t
        = postprocess (tensorRows b) s.data c.data t := by
      simp [predictTail, hd, hneg]
    rw [hpc, hpt]
    by_cases hth : 0 < t
    · obtain ⟨h1, h2, h3⟩ := maskFilter_zip_spec t s.data (tensorRows b) c.data hb hc
      have hpp : postprocess (tensorRows b) s.data c.data t
          = .ok ⟨some (maskFilter (s.data.map (fun x => decide (x > t))) (tensorRows b)),
                 some (maskFilter (s.data.map (fun x => decide (x > t))) s.data),
                 some (maskFilter (s.data.map (fun x => decide (x > t))) c.data)⟩ := by
        unfold postprocess
        rw [if_pos hth, if_pos ⟨hb, hc⟩]
      refine ⟨_, hpp, Or.inl ?_⟩
      exact ⟨_, _, _, rfl, rfl, rfl, by rw [h1, h2]; simp, by rw [h3, h2]; simp⟩
    · refine ⟨⟨some (tensorRows b), some s.data, some c.data⟩, ?_, Or.inl ?_⟩
      · unfold postprocess
        rw [if_neg hth]
      · exact ⟨_, _, _, rfl, rfl, rfl, hb, hc⟩

/-- Witness for C7 at a concrete two-detection output triple. -/
theorem predict_result_arrays_witness :
    ∃ res, predictCore false ⟨[2, 4], true, [1, 1, 2, 2, 3, 3, 4, 4]⟩
        ⟨[2], true, [9/10, 2/10]⟩ ⟨[2], false, [0, 1]⟩ (1/2) 10 10 = .ok res
      ∧ (allArraysAligned res ∨ res = sentinelResults) :=
  predict_result_arrays ⟨[2, 4], true, [1, 1, 2, 2, 3, 3, 4, 4]⟩ ⟨[2], true, [9/10, 2/10]⟩
    ⟨[2], false, [0, 1]⟩ ⟨[2, 4], true, [1, 1, 2, 2, 3, 3, 4, 4]⟩
    ⟨[2], true, [9/10, 2/10]⟩ ⟨[2], false, [0, 1]⟩ (1/2) 10 10
    (by decide) rfl rfl rfl (by decide)

/-! ## C2: the two execution strategies do not both complete -/

/-- C2 (code bug).  On the interpreted-executor path the loop outputs
are bound only to `np_boxes`/`np_boxes2`/`np_boxes3`, never to the
`boxes`/`scores`/`classes` locals the shared sentinel check reads, so
`predict` raises UnboundLocalError on `scores`; the compiled-predictor
path on the very same backend outputs completes and returns a
structured result. -/
theorem predict_python_path_crashes :
    predictCore true ⟨[1, 4], true, [1, 1, 2, 2]⟩ ⟨[1], true, [9/10]⟩ ⟨[1], false, [0]⟩
        (1/2) 10 10 = .error (.unboundLocal "scores")
    ∧ predictCore false ⟨[1, 4], true, [1, 1, 2, 2]⟩ ⟨[1], true, [9/10]⟩ ⟨[1], false, [0]⟩
        (1/2) 10 10 = .ok ⟨some [[1, 1, 2, 2]], some [9/10], some [0]⟩ := by
  refine ⟨rfl, ?_⟩
  norm_num [predictCore, predictTail, classifyOutputs, classifyStep, postprocess,
    tensorRows, rowsAux, maskFilter]

/-! ## C4: output disambiguation -/

/-- C4 (amended, positive part).  When the assignment is unique — one
tensor of rank 2 and, among the other two, exactly one of float32
dtype — the loop classifies the three tensors correctly in whatever
order the backend emits them. -/
theorem classify_unique (b s c : RawTensor)
    (hb : b.shape.length = 2) (hs2 : s.shape.length ≠ 2) (hsf : s.isFloat32 = true)
    (hc2 : c.shape.length ≠ 2) (hcf : c.isFloat32 = false)
    (l : List RawTensor)
    (hl : l = [b, s, c] ∨ l = [b, c, s] ∨ l = [s, b, c] ∨ l = [s, c, b]
        ∨ l = [c, b, s] ∨ l = [c, s, b]) :
    classifyOutputs l = (some b, some s, some c) := by
  rcases hl with h | h | h | h | h | h <;> subst h <;>
    simp [classifyOutputs, classifyStep, hb, hs2, hsf, hc2, hcf]

/-- Witness for C4 at concrete tensors emitted in the order
scores, classes, boxes. -/
theorem classify_unique_witness :
    classifyOutputs [⟨[5], true, [1, 2, 3, 4, 5]⟩, ⟨[5], false, [0, 1, 2, 3, 4]⟩,
        ⟨[5, 4], true, []⟩]
      = (some ⟨[5, 4], true, []⟩, some ⟨[5], true, [1, 2, 3, 4, 5]⟩,
         some ⟨[5], false, [0, 1, 2, 3, 4]⟩) :=
  classify_unique ⟨[5, 4], true, []⟩ ⟨[5], true, [1, 2, 3, 4, 5]⟩
    ⟨[5], false, [0, 1, 2, 3, 4]⟩ rfl (by decide) rfl (by decide) rfl
    [⟨[5], true, [1, 2, 3, 4, 5]⟩, ⟨[5], false, [0, 1, 2, 3, 4]⟩, ⟨[5, 4], true, []⟩]
    (Or.inr (Or.inr (Or.inr (Or.inl rfl))))

/-- C4 counterexample.  With two rank-2 tensors (an ambiguous
assignment: two candidates for `boxes`, none for `classes`) the loop
raises nothing: it silently lets the last rank-2 tensor win, drops the
first one, and leaves `classes` unbound. -/
theorem classify_ambiguous_no_error :
    classifyOutputs [⟨[1, 4], true, [0, 0, 0, 0]⟩, ⟨[2, 4], true, [1, 1, 2, 2, 3, 3, 4, 4]⟩,
        ⟨[2], true, [1, 2]⟩]
      = (some ⟨[2, 4], true, [1, 1, 2, 2, 3, 3, 4, 4]⟩, some ⟨[2], true, [1, 2]⟩, none)
    ∧ (⟨[1, 4], true, [0, 0, 0, 0]⟩ : RawTensor) ≠ ⟨[2, 4], true, [1, 1, 2, 2, 3, 3, 4, 4]⟩ :=
  ⟨rfl, by decide⟩

/-! ## C1: `resize_shape` after canvas padding -/

/-- C1 counterexample.  An RCNN resize of a 2×1 image with
`target_size = 2`, `max_size = 4`: the scale is 2, the unpadded resized
shape is `(round(2·2), round(2·1)) = (4, 2)`, but the recorded
`resize_shape` is the padded canvas shape `(4, 4)`. -/
theorem resize_shape_is_padded_not_unpadded :
    (Resize.init "RCNN" 2 4 true none 1).call ⟨2, 1, 3⟩ ⟨1, some (2, 1), some (2, 1)⟩
      = .ok (⟨4, 4, 3⟩, ⟨2, some (2, 1), some (4, 4)⟩)
    ∧ ((4, 4) : ℕ × ℕ)
      ≠ ((np_round (((Resize.init "RCNN" 2 4 true none 1).generate_scale ⟨2, 1, 3⟩).2
            * (2 : ℚ))).toNat,
         (np_round (((Resize.init "RCNN" 2 4 true none 1).generate_scale ⟨2, 1, 3⟩).1
            * (1 : ℚ))).toNat) := by
  constructor
  · norm_num [Resize.call, Resize.init, Resize.generate_scale, scale_set, cv2_resize,
      np_round, Int.floor_intCast]
    omega
  · norm_num [Resize.init, Resize.generate_scale, scale_set, np_round, Int.floor_intCast]
    omega

/-- C1 (amended).  For any `Resize` on the fast-bilinear path with a
nonzero `max_size` (the stored `image_shape` 1-tuple is never `None`,
so padding always runs) whose scaled result fits the canvas,
`__call__` sets `resize_shape` to the padded canvas shape
`(max_size, max_size)`, not to the unpadded resized shape. -/
theorem resize_call_padded_resize_shape (r : Resize) (im : Img) (info : ImInfo)
    (hcv : r.use_cv2 = true) (hm : r.max_size ≠ 0) (hsh : r.image_shape.isSome = true)
    (hfh : (cv2_resize im (r.generate_scale im).1 (r.generate_scale im).2).h ≤ r.max_size.toNat)
    (hfw : (cv2_resize im (r.generate_scale im).1 (r.generate_scale im).2).w ≤ r.max_size.toNat) :
    ∃ sc, r.call im info
      = .ok (⟨r.max_size.toNat, r.max_size.toNat, im.c⟩,
             ⟨sc, info.origin_shape, some (r.max_size.toNat, r.max_size.toNat)⟩) := by
  refine ⟨if r.arch ∈ scale_set then (r.generate_scale im).1 else info.scale, ?_⟩
  unfold Resize.call
  dsimp only
  rw [if_pos (show r.use_cv2 = true from hcv)]
  dsimp only
  rw [if_pos (show r.max_size ≠ 0 ∧ r.image_shape.isSome = true from ⟨hm, hsh⟩)]
  rw [if_pos (show (cv2_resize im (r.generate_scale im).1 (r.generate_scale im).2).h ≤ r.max_size.toNat
      ∧ (cv2_resize im (r.generate_scale im).1 (r.generate_scale im).2).w ≤ r.max_size.toNat
      ∧ (cv2_resize im (r.generate_scale im).1 (r.generate_scale im).2).c = im.c
      from ⟨hfh, hfw, rfl⟩)]
  by_cases harch : r.arch ∈ scale_set <;> simp [harch]

/-- Witness for C1 at a concrete YOLO-style resize of a 2×2 image with
`target_size = 2`, `max_size = 4`. -/
theorem resize_call_padded_resize_shape_witness :
    ∃ sc, (Resize.init "YOLO" 2 4 true none 1).call ⟨2, 2, 3⟩ ⟨1, some (2, 2), some (2, 2)⟩
      = .ok (⟨(4 : ℤ).toNat, (4 : ℤ).toNat, 3⟩,
             ⟨sc, some (2, 2), some ((4 : ℤ).toNat, (4 : ℤ).toNat)⟩) :=
  resize_call_padded_resize_shape (Resize.init "YOLO" 2 4 true none 1) ⟨2, 2, 3⟩
    ⟨1, some (2, 2), some (2, 2)⟩ rfl (by decide) rfl
    (by norm_num [cv2_resize, Resize.init, Resize.generate_scale, scale_set, np_round,
      Int.floor_intCast])
    (by norm_num [cv2_resize, Resize.init, Resize.generate_scale, scale_set, np_round,
      Int.floor_intCast])

/-! ## C8: input assembly for an unmatched architecture -/

/-- C8 counterexample.  `create_inputs` for arch `"SSD"` (which matches
none of YOLO/RetinaNet/RCNN) raises nothing: it returns the input dict
holding only the image tensor. -/
theorem create_inputs_ssd_returns_image_only :
    create_inputs ⟨1, 1, 3⟩ ⟨1, some (5, 7), some (3, 4)⟩ "SSD"
      = .ok ⟨⟨1, 1, 3⟩, none, none, none, none⟩
    ∧ (create_inputs ⟨1, 1, 3⟩ ⟨1, some (5, 7), some (3, 4)⟩ "SSD").isOk = true :=
  ⟨rfl, rfl⟩

/-- C8 (amended).  For every image and populated metadata, an
architecture string containing none of the substrings YOLO, RetinaNet,
RCNN makes `create_inputs` fall through every branch and return the
tensor set holding only the image — no error of any kind is raised. -/
theorem create_inputs_unmatched_arch (im : Img) (sc : ℚ) (oh ow rh rw' : ℕ)
    (arch : String)
    (h1 : pyIn "YOLO" arch = false) (h2 : pyIn "RetinaNet" arch = false)
    (h3 : pyIn "RCNN" arch = false) :
    create_inputs im ⟨sc, some (oh, ow), some (rh, rw')⟩ arch
      = .ok ⟨im, none, none, none, none⟩ := by
  simp [create_inputs, h1, h2, h3]

/-- Witness for C8 at arch `"SSD"`. -/
theorem create_inputs_unmatched_arch_witness :
    create_inputs ⟨2, 2, 3⟩ ⟨1, some (6, 8), some (3, 4)⟩ "SSD"
      = .ok ⟨⟨2, 2, 3⟩, none, none, none, none⟩ :=
  create_inputs_unmatched_arch ⟨2, 2, 3⟩ 1 6 8 3 4 "SSD" (by decide) (by decide) (by decide)

/-! ## C9: when the max-size/quality-path error is raised -/

/-- C9 counterexample.  A `Detector` whose preprocess list contains a
`Resize` with `max_size = 1333` and `use_cv2 = False` is constructed
without any error; the TypeError only appears when the operator is
applied to the first image. -/
theorem resize_cap_not_checked_at_construction :
    Detector.init ⟨"YOLO", false, [OpInfo.resizeOp 608 1333 false none 1]⟩
      = .ok ⟨⟨"YOLO", false, [OpInfo.resizeOp 608 1333 false none 1]⟩,
             [PreprocessOp.resize (Resize.init "YOLO" 608 1333 false none 1)]⟩
    ∧ (Resize.init "YOLO" 608 1333 false none 1).call ⟨416, 416, 3⟩
        ⟨1, some (416, 416), some (416, 416)⟩ = .error (.typeError resizeCapMsg) := by
  refine ⟨rfl, ?_⟩
  norm_num [Resize.call, Resize.init, Resize.generate_scale, scale_set]

/-- C9 (amended).  Combining a nonzero `max_size` with `use_cv2 =
False` is indeed an error, but it is raised lazily by
`Resize.__call__` on the first processed image; `Detector.__init__`
performs no validation and always succeeds. -/
theorem resize_cap_error_raised_at_call (arch ca : String) (t m ip : ℤ)
    (ish : Option (List ℤ)) (upi : Bool) (infos : List OpInfo) (im : Img)
    (info : ImInfo) (hm : m ≠ 0) :
    Detector.init ⟨ca, upi, infos⟩
      = .ok ⟨⟨ca, upi, infos⟩, infos.map (buildPreprocessOp ca)⟩
    ∧ (Resize.init arch t m false ish ip).call im info
      = .error (.typeError resizeCapMsg) := by
  refine ⟨rfl, ?_⟩
  simp [Resize.call, Resize.init, hm]

/-- Witness for C9 at a concrete configuration and image. -/
theorem resize_cap_error_raised_at_call_witness :
    Detector.init ⟨"RCNN", true, []⟩ = .ok ⟨⟨"RCNN", true, []⟩, List.map (buildPreprocessOp "RCNN") []⟩
    ∧ (Resize.init "RCNN" 800 1333 false none 1).call ⟨100, 50, 3⟩ ⟨1, some (100, 50), some (100, 50)⟩
      = .error (.typeError resizeCapMsg) :=
  resize_cap_error_raised_at_call "RCNN" "RCNN" 800 1333 1 none true [] ⟨100, 50, 3⟩
    ⟨1, some (100, 50), some (100, 50)⟩ (by decide)

/-! ## C10: PadStride's non-uniform return shape -/

/-- C10.  `PadStride.__call__` with stride 0 returns only the image —
not the `(image, metadata)` pair the pipeline unpacking assumes — while
any positive stride returns the padded image together with the updated
metadata. -/
theorem pad_stride_return_shape (s : ℕ) (im : ℕ × ℕ × ℕ) (info : ImInfo) :
    (s = 0 → PadStride.call ⟨s⟩ im info = .imageOnly im)
    ∧ (0 < s →
        PadStride.call ⟨s⟩ im info
          = .withInfo
              (im.1, (py_int ((⌈(im.2.1 : ℚ) / (s : ℚ)⌉ : ℚ) * (s : ℚ))).toNat,
               (py_int ((⌈(im.2.2 : ℚ) / (s : ℚ)⌉ : ℚ) * (s : ℚ))).toNat)
              (ImInfo.mk info.scale info.origin_shape
                (some ((py_int ((⌈(im.2.1 : ℚ) / (s : ℚ)⌉ : ℚ) * (s : ℚ))).toNat,
                  (py_int ((⌈(im.2.2 : ℚ) / (s : ℚ)⌉ : ℚ) * (s : ℚ))).toNat)))) := by
  constructor
  · intro h
    subst h
    rfl
  · intro h
    simp [PadStride.call, Nat.pos_iff_ne_zero.mp h]

/-- Witness for C10: stride 0 passes the image through bare; stride 32
on a 3×64×96 buffer returns the (already aligned) pair. -/
theorem pad_stride_return_shape_witness :
    PadStride.call ⟨0⟩ (3, 5, 7) ⟨1, none, none⟩ = .imageOnly (3, 5, 7)
    ∧ PadStride.call ⟨32⟩ (3, 64, 96) ⟨1, none, none⟩
      = .withInfo (3, 64, 96) ⟨1, none, some (64, 96)⟩ := by
  constructor
  · exact (pad_stride_return_shape 0 (3, 5, 7) ⟨1, none, none⟩).1 rfl
  · have h := (pad_stride_return_shape 32 (3, 64, 96) ⟨1, none, none⟩).2 (by norm_num)
    rw [h]
    norm_num [py_int]
    omega

end DeployInfer
